import Mathlib

/-!
Verification of the voice-call agent repository (two Flask variants:
`ORIGINALE.py` with a background-thread turn pipeline, and `app.py`
with a synchronous turn handler).  The Python functions are shallowly
embedded as pure Lean functions; all external network calls (recording
download, speech-to-text, the chat-completion engine, text-to-speech)
are represented by explicit oracle values standing for the outcome of
the single HTTP request the source code performs at that point, and
the process-wide mutable dictionaries (`CONVERSATIONS`, the `audio/`
directory used as a synthesis cache) are threaded explicitly as
association lists.
-/

namespace Aibot

/-- One chat message, `{role, content}` as stored in `CONVERSATIONS`. -/
structure Message where
  role : String
  content : String
deriving DecidableEq, Repr

/-- The in-memory conversation registry `CONVERSATIONS : dict[str, list]`. -/
abbrev Registry := List (String × List Message)

/-- The `audio/` directory, acting as the synthesis cache: filename to bytes. -/
abbrev FileStore := List (String × List Nat)

/-- Lookup in a string-keyed association list (dictionary access `m.get(k)`). -/
def lookupA {α : Type} : List (String × α) → String → Option α
  | [], _ => none
  | (k2, v) :: rest, k => if k2 = k then some v else lookupA rest k

/-- Insertion / overwrite in a string-keyed association list (`m[k] = v`). -/
def insertA {α : Type} : List (String × α) → String → α → List (String × α)
  | [], k, v => [(k, v)]
  | (k2, v2) :: rest, k, v =>
      if k2 = k then (k2, v) :: rest else (k2, v2) :: insertA rest k v

theorem lookupA_insertA_self {α : Type} (m : List (String × α)) (k : String) (v : α) :
    lookupA (insertA m k v) k = some v := by
  induction m with
  | nil => simp [insertA, lookupA]
  | cons hd tl ih =>
      obtain ⟨k2, v2⟩ := hd
      by_cases h : k2 = k
      · simp [insertA, lookupA, h]
      · simp [insertA, lookupA, h, ih]

theorem lookupA_insertA_ne {α : Type} (m : List (String × α)) (k k2 : String) (v : α)
    (h : k2 ≠ k) : lookupA (insertA m k v) k2 = lookupA m k2 := by
  induction m with
  | nil => simp [insertA, lookupA, fun hh => h hh.symm ∘ Eq.symm, Ne.symm h]
  | cons hd tl ih =>
      obtain ⟨k3, v3⟩ := hd
      by_cases h3 : k3 = k
      · subst h3
        simp [insertA, lookupA, Ne.symm h]
      · simp [insertA, lookupA, h3, ih]

/-! ### SHA-1 (as used by `hashlib.sha1(text.encode("utf-8")).hexdigest()`) -/

/-- Truncation to a 32-bit word. -/
def w32 (n : Nat) : Nat := n % 4294967296

/-- 32-bit left rotation of a word `n < 2^32` by `b` bits. -/
def rotl32 (b n : Nat) : Nat := w32 (n * 2 ^ b + n / 2 ^ (32 - b))

/-- The SHA-1 round constants. -/
def sha1K (t : Nat) : Nat :=
  if t < 20 then 0x5A827999
  else if t < 40 then 0x6ED9EBA1
  else if t < 60 then 0x8F1BBCDC
  else 0xCA62C1D6

/-- The SHA-1 round functions. -/
def sha1F (t b c d : Nat) : Nat :=
  if t < 20 then (b &&& c) ||| ((0xFFFFFFFF ^^^ b) &&& d)
  else if t < 40 then b ^^^ c ^^^ d
  else if t < 60 then (b &&& c) ||| (b &&& d) ||| (c &&& d)
  else b ^^^ c ^^^ d

/-- Extend the reversed message-word list (most recent word first) by
`k` schedule words. -/
def sha1extend : Nat → List Nat → List Nat
  | 0, wrev => wrev
  | k + 1, wrev =>
      sha1extend k
        (rotl32 1 ((wrev.getD 2 0) ^^^ (wrev.getD 7 0) ^^^
          (wrev.getD 13 0) ^^^ (wrev.getD 15 0)) :: wrev)

/-- The 80-entry message schedule of a 16-word block. -/
def sha1ws (block : List Nat) : List Nat :=
  (sha1extend 64 block.reverse).reverse

/-- The 80 SHA-1 rounds, consuming the schedule from round `t` on. -/
def sha1rounds : Nat → List Nat → Nat × Nat × Nat × Nat × Nat → Nat × Nat × Nat × Nat × Nat
  | _, [], st => st
  | t, w :: ws, (a, b, c, d, e) =>
      sha1rounds (t + 1) ws
        (w32 (rotl32 5 a + sha1F t b c d + e + sha1K t + w), a, rotl32 30 b, c, d)

/-- One SHA-1 compression step over a 16-word block. -/
def sha1compress (h : Nat × Nat × Nat × Nat × Nat) (block : List Nat) :
    Nat × Nat × Nat × Nat × Nat :=
  let st := sha1rounds 0 (sha1ws block) h
  (w32 (h.1 + st.1), w32 (h.2.1 + st.2.1), w32 (h.2.2.1 + st.2.2.1),
   w32 (h.2.2.2.1 + st.2.2.2.1), w32 (h.2.2.2.2 + st.2.2.2.2))

/-- Group a byte list into big-endian 32-bit words. -/
def toWords : List Nat → List Nat
  | b0 :: b1 :: b2 :: b3 :: rest =>
      (b0 * 16777216 + b1 * 65536 + b2 * 256 + b3) :: toWords rest
  | _ => []

/-- Split a byte list into 64-byte chunks (structural recursion on a
fuel bound so the definition reduces in the kernel). -/
def chunks64Aux : Nat → List Nat → List (List Nat)
  | _, [] => []
  | 0, _ => []
  | fuel + 1, l => l.take 64 :: chunks64Aux fuel (l.drop 64)

/-- Split a byte list into 64-byte chunks. -/
def chunks64 (l : List Nat) : List (List Nat) := chunks64Aux l.length l

/-- 64-bit big-endian byte encoding of a length field. -/
def be8 (n : Nat) : List Nat :=
  [n / 2 ^ 56 % 256, n / 2 ^ 48 % 256, n / 2 ^ 40 % 256, n / 2 ^ 32 % 256,
   n / 2 ^ 24 % 256, n / 2 ^ 16 % 256, n / 2 ^ 8 % 256, n % 256]

/-- SHA-1 padding: `0x80`, zeros to 56 mod 64, then the bit length. -/
def sha1pad (msg : List Nat) : List Nat :=
  msg ++ [0x80] ++ List.replicate ((119 - msg.length % 64) % 64) 0 ++ be8 (8 * msg.length)

/-- The five 32-bit words of the SHA-1 digest of a byte list. -/
def sha1words (msg : List Nat) : Nat × Nat × Nat × Nat × Nat :=
  (chunks64 (sha1pad msg)).foldl (fun h blk => sha1compress h (toWords blk))
    (0x67452301, 0xEFCDAB89, 0x98BADCFE, 0x10325476, 0xC3D2E1F0)

/-- A lowercase hexadecimal digit. -/
def hexChar (n : Nat) : Char :=
  if n < 10 then Char.ofNat (48 + n) else Char.ofNat (87 + n)

/-- Eight lowercase hex characters of a 32-bit word. -/
def hex8 (n : Nat) : List Char :=
  [hexChar (n / 2 ^ 28 % 16), hexChar (n / 2 ^ 24 % 16), hexChar (n / 2 ^ 20 % 16),
   hexChar (n / 2 ^ 16 % 16), hexChar (n / 2 ^ 12 % 16), hexChar (n / 2 ^ 8 % 16),
   hexChar (n / 2 ^ 4 % 16), hexChar (n % 16)]

/-- `hashlib.sha1(bytes).hexdigest()`. -/
def sha1hex (msg : List Nat) : String :=
  String.mk (hex8 (sha1words msg).1 ++ hex8 (sha1words msg).2.1 ++
    hex8 (sha1words msg).2.2.1 ++ hex8 (sha1words msg).2.2.2.1 ++
    hex8 (sha1words msg).2.2.2.2)

/-- UTF-8 encoding of a single code point (`str.encode("utf-8")`, per char). -/
def utf8EncodeChar (c : Char) : List Nat :=
  let n := c.toNat
  if n < 0x80 then [n]
  else if n < 0x800 then [0xC0 + n / 64, 0x80 + n % 64]
  else if n < 0x10000 then
    [0xE0 + n / 4096, 0x80 + n / 64 % 64, 0x80 + n % 64]
  else
    [0xF0 + n / 262144, 0x80 + n / 4096 % 64, 0x80 + n / 64 % 64, 0x80 + n % 64]

/-- UTF-8 encoding of a string (`text.encode("utf-8")`). -/
def utf8Bytes (s : String) : List Nat :=
  s.data.foldr (fun c acc => utf8EncodeChar c ++ acc) []

set_option maxRecDepth 100000 in
/-- Digest sanity anchor against the reference value of SHA-1 on "abc". -/
theorem sha1hex_abc : sha1hex (utf8Bytes "abc") = "a9993e364706816aba3e25717850c26c9cd0d89d" := by
  decide

/-! ### Shared model pieces of the two webhook applications -/

/-- Python `str.strip()`: drop leading and trailing whitespace.  Defined
structurally over the character list so that it reduces in the kernel
(`String.trim` does not). -/
def pyStrip (s : String) : String :=
  String.mk (((s.data.dropWhile Char.isWhitespace).reverse.dropWhile
    Char.isWhitespace).reverse)

/-- The POST form of a `/twilio/process` request as delivered by the
telephony platform; each handler reads only the fields it uses. -/
structure Form where
  CallSid : Option String
  RecordingUrl : Option String
  SpeechResult : Option String
deriving DecidableEq, Repr

/-- Outcome of the single chat-completion HTTP request performed by
`gpt_reply` / `openai_reply`: either the reply content extracted from the
JSON response, or any failure (timeout, transport error, bad status,
malformed JSON), which the `except` clause of the source catches. -/
inductive EngineResult where
  | ok (content : String)
  | err
deriving DecidableEq, Repr

/-- A TwiML verb as assembled by the handlers (`<Say>`, `<Play>`,
`<Record>`, `<Gather>` with its nested `<Say>`, `<Redirect>`).  For
`<Say>` the `voice` attribute is `""` where the source sets none. -/
inductive Verb where
  | say (text lang voice : String)
  | play (url : String)
  | record (action : String) (playBeep : Bool) (timeout maxLength : Nat)
  | gather (action lang speechTimeout : String) (bargeIn : Bool)
      (timeout : Option Nat) (sayText sayLang : String)
  | redirect (url : String)
deriving DecidableEq, Repr

/-! ### Embedding of `src/ORIGINALE.py` -/

namespace ORIGINALE

/-- `is_greek`, per-character test used by the loop body. -/
def isGreekChar (ch : Char) : Bool :=
  (0x0370 ≤ ch.toNat && ch.toNat ≤ 0x03FF) || (0x1F00 ≤ ch.toNat && ch.toNat ≤ 0x1FFF)

/-- `is_greek(text)`: true iff some character lies in U+0370..U+03FF or
U+1F00..U+1FFF (the `for ch in text` loop returning at the first hit). -/
def is_greek (text : String) : Bool := text.data.any isGreekChar

/-- The system/persona message installed on first contact for a call. -/
def origSystemPrompt : String :=
  "Είσαι επαγγελματική, ευγενική και σύντομη τηλεφωνήτρια στην \x27Ψησταριά της Βούλας\x27 στη Σπάρτη.\nΜιλάς φυσικά, σε δεύτερο πρόσωπο (πχ. \x27να σας βάλω κάτι ακόμα;\x27).\nΣτόχος σου είναι:\n- Να καταλαβαίνεις αμέσως τι θέλει να παραγγείλει ο πελάτης.\n- Να ρωτάς ξεκάθαρες διευκρινίσεις (πχ. τι κρέας, τι σως, πόσα τεμάχια).\n- Να επιβεβαιώνεις στο τέλος την παραγγελία, καθαρά και οργανωμένα.\nΜΗΝ λες περιγραφές από e-food. Μίλα απλά, σαν άνθρωπος.\nΑν ο πελάτης ρωτήσει \x27τι έχει το μενού\x27, πες συνοπτικά τις βασικές κατηγορίες:\nτυλιχτά (γύρος, σουβλάκι), σκεπαστές, μερίδες, σαλάτες, ορεκτικά, burgers, αναψυκτικά.\n"

/-- The scripted apologetic fallback returned when the engine call fails. -/
def gpt_fallback : String :=
  "Συγγνώμη, αντιμετωπίζω ένα τεχνικό πρόβλημα. Μπορείτε να επαναλάβετε λίγο πιο απλά;"

/-- The history-trimming step at the end of `gpt_reply`:
`if len(conv) > 20: CONVERSATIONS[call_sid] = [conv[0]] + conv[-19:]`. -/
def compact20 (conv : List Message) : List Message :=
  if conv.length > 20 then conv.take 1 ++ conv.drop (conv.length - 19) else conv

/-- `gpt_reply(call_sid, user_text)`, with the chat-completion HTTP call
abstracted as `engine` and `CONVERSATIONS` threaded explicitly.  Creates
the session lazily, appends the user message, appends the (possibly
fallback) assistant message, trims, and returns the reply text. -/
def gpt_reply (engine : EngineResult) (conversations : Registry)
    (call_sid user_text : String) : Registry × String :=
  let conv0 :=
    match lookupA conversations call_sid with
    | some c => c
    | none => [⟨"system", origSystemPrompt⟩]
  let conv1 := conv0 ++ [⟨"user", user_text⟩]
  let reply :=
    match engine with
    | .ok content => pyStrip content
    | .err => gpt_fallback
  let conv2 := conv1 ++ [⟨"assistant", reply⟩]
  (insertA conversations call_sid (compact20 conv2), reply)

/-- Outcome of the single TTS HTTP request in `tts_audio` (any failure,
including a failed write of the file, lands in the `except` clause). -/
inductive TtsResult where
  | ok (content : List Nat)
  | err
deriving DecidableEq, Repr

/-- Result record for `tts_audio`: new audio directory contents, the
returned URL (`""` on failure, as in the source), and whether the
external synthesis request was issued. -/
structure TtsOut where
  store : FileStore
  url : String
  networkCalled : Bool
deriving DecidableEq, Repr

/-- `tts_audio(text, label)`: always issues the synthesis request (no
cache lookup, no size validation, no retry), writes the artifact under
`label_{uuid4().hex}.mp3` on success, and returns `""` on failure.  The
fresh uuid is passed in as `file_id`. -/
def tts_audio (tts : TtsResult) (file_id : String) (store : FileStore)
    (baseUrl text label : String) : TtsOut :=
  let name := label ++ "_" ++ file_id ++ ".mp3"
  match tts with
  | .ok content => ⟨insertA store name content, baseUrl ++ "/audio/" ++ name, true⟩
  | .err => ⟨store, "", true⟩

/-- Outcome of the Deepgram HTTP request: the transcript field extracted
from the JSON, or any failure. -/
inductive SttResult where
  | ok (transcript_field : String)
  | err
deriving DecidableEq, Repr

/-- `deepgram_stt(audio_bytes)`: strips the transcript on success and
converts every failure to the empty string. -/
def deepgram_stt (stt : SttResult) : String :=
  match stt with
  | .ok t => pyStrip t
  | .err => ""

/-- Outcome of the authenticated recording download. -/
inductive DownloadResult where
  | ok (content : List Nat)
  | err
deriving DecidableEq, Repr

/-- The fixed reprompt spoken when transcription yields nothing. -/
def reprompt_text : String :=
  "Δεν σας άκουσα καθαρά. Μπορείτε να το επαναλάβετε λίγο πιο αργά;"

/-- The fixed reply when the utterance is not recognized as Greek. -/
def notgreek_text : String :=
  "Για να σας εξυπηρετήσω σωστά, μιλήστε μου στα ελληνικά, παρακαλώ."

/-- The fixed `<Say>` text of the TwiML fallback when TTS failed. -/
def tts_fail_say_text : String :=
  "Συγγνώμη, αντιμετωπίζω ένα τεχνικό θέμα με τον ήχο. Πείτε μου ξανά τι θα θέλατε να παραγγείλετε."

/-- The holding utterance of the synchronous `/twilio/process` response. -/
def holding_say_text : String := "Ένα δευτερόλεπτο να ετοιμάσω την παραγγελία σας."

/-- The error utterance when the webhook lacks `CallSid`/`RecordingUrl`. -/
def proc_error_say_text : String :=
  "Παρουσιάστηκε τεχνικό σφάλμα με την κλήση. Προσπαθήστε ξανά."

/-- The Twilio demo hold-music URL looped while the agent thinks. -/
def TWILIO_HOLD_MUSIC : String :=
  "http://com.twilio.music.classical.s3.amazonaws.com/BusyStrings.mp3"

/-- The outcomes of all external requests one background run performs,
plus the fresh uuid consumed by `tts_audio`. -/
structure TurnOracle where
  download : DownloadResult
  stt : SttResult
  engine : EngineResult
  tts : TtsResult
  tts_file_id : String
deriving DecidableEq, Repr

/-- Result record of one `background_process` run: final registry and
audio directory, the TwiML update pushed to the live call (`none` when
the download failed and the run ended at the outer `except`), whether
`gpt_reply` was invoked, and the chosen `bot_text`. -/
structure BgResult where
  conversations : Registry
  store : FileStore
  update : Option (List Verb)
  gptCalled : Bool
  bot_text : Option String
deriving DecidableEq, Repr

/-- `background_process(call_sid, recording_url)`: download, STT, the
three-way branch (empty transcript / non-Greek / GPT), TTS, and the
live-call TwiML update (Play+Record, or the fixed Say+Record fallback
when TTS returned `""`). -/
def background_process (o : TurnOracle) (baseUrl : String)
    (conversations : Registry) (store : FileStore)
    (call_sid recording_url : String) : BgResult :=
  match o.download with
  | .err => ⟨conversations, store, none, false, none⟩
  | .ok _audio_bytes =>
    let transcript := deepgram_stt o.stt
    let step :=
      if transcript = "" then (conversations, reprompt_text, false)
      else if is_greek transcript = false then (conversations, notgreek_text, false)
      else
        let r := gpt_reply o.engine conversations call_sid transcript
        (r.1, r.2, true)
    let t := tts_audio o.tts o.tts_file_id store baseUrl step.2.1 call_sid
    let twiml :=
      if t.url ≠ "" then
        [Verb.play t.url, Verb.record "/twilio/process" false 6 15]
      else
        [Verb.say tts_fail_say_text "el-GR" "alice",
         Verb.record "/twilio/process" false 6 15]
    ⟨step.1, t.store, some twiml, step.2.2, some step.2.1⟩

/-- Python truthiness test `not s` for an optional form field. -/
def falsy (s : Option String) : Bool :=
  match s with
  | none => true
  | some t => t = ""

/-- Result record of the synchronous `/twilio/process` handler: the
TwiML response and the `(call_sid, recording_url)` arguments handed to
the background thread started before the handler returns (`none` when
no thread is spawned). -/
structure HandlerResult where
  conversations : Registry
  store : FileStore
  response : List Verb
  background : Option (String × String)
deriving DecidableEq, Repr

/-- `twilio_process()`: on missing/empty `CallSid` or `RecordingUrl`
answer with an error `<Say>` and spawn nothing; otherwise spawn the
background thread and answer immediately with the holding utterance
plus hold music.  The handler itself never touches the registry or the
audio directory. -/
def twilio_process (form : Form) (conversations : Registry) (store : FileStore) :
    HandlerResult :=
  if falsy form.CallSid || falsy form.RecordingUrl then
    ⟨conversations, store, [Verb.say proc_error_say_text "el-GR" "alice"], none⟩
  else
    ⟨conversations, store,
     [Verb.say holding_say_text "el-GR" "alice", Verb.play TWILIO_HOLD_MUSIC],
     some (form.CallSid.getD "", form.RecordingUrl.getD "")⟩

/-- A sequence of turns on one call: each element is the transcribed
user text of that turn together with the engine outcome for it; the
registry is folded through `gpt_reply` (the only transcript mutation of
the pipeline).  This is the quantification structure of the claims, not
a source function. -/
def runTurns (call_sid : String) : List (String × EngineResult) → Registry → Registry
  | [], reg => reg
  | (t, e) :: rest, reg => runTurns call_sid rest (gpt_reply e reg call_sid t).1

end ORIGINALE

/-! ### Embedding of `src/app.py` -/

namespace App

/-- `_mp3_path_for_text(call_sid, text)`: the cache filename inside the
audio directory, `f"{call_sid}_{h}.mp3"` with `h` the first 16 hex
characters of the SHA-1 of the UTF-8 encoded text. -/
def sha1hex16 (text : String) : String := (sha1hex (utf8Bytes text)).take 16

/-- The filename produced by `_mp3_path_for_text`. -/
def _mp3_path_for_text (call_sid text : String) : String :=
  call_sid ++ "_" ++ sha1hex16 text ++ ".mp3"

/-- The system/persona message of the Peinaleon variant. -/
def appSystemPrompt : String :=
  "Είσαι τηλεφωνήτρια σε ελληνικό σουβλατζίδικο με όνομα Πειναλέων. Μιλάς ΜΟΝΟ ελληνικά, σύντομα και φυσικά, σαν κανονικός υπάλληλος. Στόχος σου είναι να πάρεις την παραγγελία, να ρωτήσεις ό,τι λείπει και να την επιβεβαιώσεις, μαζί με διεύθυνση και τηλέφωνο.\n\n- Στο ΠΡΩΤΟ μήνυμα της κλήσης μπορείς να πεις μια σύντομη χαιρετούρα.\n- Στα επόμενα μηνύματα ΔΕΝ ξαναλες \x27Καλησπέρα\x27 χωρίς λόγο.\n- Θυμάσαι τι έχει ήδη παραγγείλει ο πελάτης και τη διεύθυνση.\n- Αν ο πελάτης πει ότι τελειώσαμε ή πει \x27όχι, αυτά\x27, \x27ευχαριστώ\x27, \x27καλό βράδυ\x27, κλείσε ευγενικά τη συνομιλία με μια σύντομη σύνοψη της παραγγελίας και του χρόνου παράδοσης."

/-- The fallback returned (but not stored) when the engine call fails. -/
def openai_fallback : String :=
  "Συγγνώμη, αντιμετωπίζω τεχνικό πρόβλημα αυτή τη στιγμή. Μπορείτε να καλέσετε λίγο αργότερα;"

/-- The in-place history-trimming step of `openai_reply`, run after the
user message is appended and before the engine request:
`if len(conv) > 15: conv[:] = [conv[0]] + conv[-14:]`. -/
def compact15 (conv : List Message) : List Message :=
  if conv.length > 15 then conv.take 1 ++ conv.drop (conv.length - 14) else conv

/-- `openai_reply(call_sid, text)`.  The whole body is inside one
`try`: the session is created lazily (`if not conv`, so an empty stored
list is also re-created), the user message is appended, the history is
trimmed, and then the engine request runs.  On success the assistant
message is appended and the reply returned; on failure the fallback is
returned while the stored conversation keeps only the user message. -/
def openai_reply (engine : EngineResult) (conversations : Registry)
    (call_sid text : String) : Registry × String :=
  let conv0 :=
    match lookupA conversations call_sid with
    | some c => if c = [] then [⟨"system", appSystemPrompt⟩] else c
    | none => [⟨"system", appSystemPrompt⟩]
  let conv1 := conv0 ++ [⟨"user", text⟩]
  let conv2 := compact15 conv1
  match engine with
  | .ok content =>
      let reply := pyStrip content
      (insertA conversations call_sid (conv2 ++ [⟨"assistant", reply⟩]), reply)
  | .err => (insertA conversations call_sid conv2, openai_fallback)

/-- Outcome of the single ElevenLabs HTTP request of `eleven_tts`:
the returned bytes, a `requests.Timeout`, or any other failure. -/
inductive ElevenResult where
  | ok (content : List Nat)
  | timeout
  | err
deriving DecidableEq, Repr

/-- Result record for `eleven_tts`: new audio directory contents, the
returned URL (`None` on failure), and whether the external synthesis
request was issued. -/
structure ElevenOut where
  store : FileStore
  url : Option String
  networkCalled : Bool
deriving DecidableEq, Repr

/-- `eleven_tts(text, call_sid)`: if the cache file for
`_mp3_path_for_text(call_sid, text)` already exists, return its URL
with no network call; otherwise issue the synthesis request once (no
size validation, no retry), write the bytes and return the URL on
success, and return `None` on timeout or any other failure. -/
def eleven_tts (elev : ElevenResult) (store : FileStore)
    (baseUrl text call_sid : String) : ElevenOut :=
  let audio_name := _mp3_path_for_text call_sid text
  if (lookupA store audio_name).isSome then
    ⟨store, some (baseUrl ++ "/audio/" ++ audio_name), false⟩
  else
    match elev with
    | .ok content =>
        ⟨insertA store audio_name content,
         some (baseUrl ++ "/audio/" ++ audio_name), true⟩
    | .timeout => ⟨store, none, true⟩
    | .err => ⟨store, none, true⟩

/-- The reprompt spoken when `SpeechResult` is empty after stripping. -/
def didnt_hear_text : String := "Δεν σας άκουσα, μπορείτε να επαναλάβετε;"

/-- The nested `<Say>` of the follow-up `<Gather>`. -/
def followup_say_text : String :=
  "Σας ακούω. Θέλετε κάτι άλλο ή να ολοκληρώσουμε την παραγγελία;"

/-- The follow-up `<Gather>` appended after playing/saying the reply. -/
def followupGather : Verb :=
  Verb.gather "/twilio/process" "el-GR" "auto" true none followup_say_text "el-GR"

/-- The outcomes of the external requests one `/twilio/process` request
may perform, the truthiness of `ELEVEN_API_KEY`, and the fresh uuid
used as the default `CallSid`. -/
structure AppOracle where
  engine : EngineResult
  elevenKeyPresent : Bool
  eleven : ElevenResult
  fresh_uuid : String
deriving DecidableEq, Repr

/-- Result record of the synchronous handler of this variant: final
registry and audio directory, the TwiML response, the background
handoff (always `none`: this variant spawns no thread), and whether an
external synthesis request was issued. -/
structure HandlerResult where
  conversations : Registry
  store : FileStore
  response : List Verb
  background : Option (String × String)
  synthNetworkCalled : Bool
deriving DecidableEq, Repr

/-- `twilio_process()` of `app.py`: reads `SpeechResult` and `CallSid`
(defaulting to a fresh uuid when absent), reprompts and redirects on
empty speech, and otherwise runs the full pipeline synchronously —
`openai_reply`, optionally `eleven_tts`, then `<Play>` of the artifact
or `<Say>` of the reply text, the follow-up `<Gather>`, and a
`<Redirect>`. -/
def twilio_process (o : AppOracle) (form : Form) (conversations : Registry)
    (store : FileStore) (baseUrl : String) : HandlerResult :=
  let speech := form.SpeechResult.getD ""
  let call_sid := form.CallSid.getD o.fresh_uuid
  if pyStrip speech = "" then
    ⟨conversations, store,
     [Verb.say didnt_hear_text "el-GR" "", Verb.redirect "/twilio/voice"],
     none, false⟩
  else
    let r := openai_reply o.engine conversations call_sid speech
    let e :=
      if o.elevenKeyPresent then eleven_tts o.eleven store baseUrl r.2 call_sid
      else ⟨store, none, false⟩
    let playOrSay :=
      match e.url with
      | some url => Verb.play url
      | none => Verb.say r.2 "el-GR" ""
    ⟨r.1, e.store,
     [playOrSay, followupGather, Verb.redirect "/twilio/voice"],
     none, e.networkCalled⟩

/-- A sequence of turns on one call for this variant, each with its
transcribed text and engine outcome, folded through `openai_reply`. -/
def runTurns (call_sid : String) : List (String × EngineResult) → Registry → Registry
  | [], reg => reg
  | (t, e) :: rest, reg => runTurns call_sid rest (openai_reply e reg call_sid t).1

end App

/-! ### Helper lemmas about the two compaction steps -/

theorem compact20_length (l : List Message) : (ORIGINALE.compact20 l).length ≤ 20 := by
  unfold ORIGINALE.compact20
  split
  · simp only [List.length_append, List.length_take, List.length_drop]
    omega
  · omega

theorem compact15_length (l : List Message) : (App.compact15 l).length ≤ 15 := by
  unfold App.compact15
  split
  · simp only [List.length_append, List.length_take, List.length_drop]
    omega
  · omega

theorem compact20_head (l : List Message) (h : l ≠ []) :
    (ORIGINALE.compact20 l).head? = l.head? := by
  unfold ORIGINALE.compact20
  split
  · match l, h with
    | a :: t, _ => simp
  · rfl

theorem compact15_head (l : List Message) (h : l ≠ []) :
    (App.compact15 l).head? = l.head? := by
  unfold App.compact15
  split
  · match l, h with
    | a :: t, _ => simp
  · rfl

theorem compact20_sublist (l : List Message) : (ORIGINALE.compact20 l).Sublist l := by
  unfold ORIGINALE.compact20
  split
  · next h =>
      match l with
      | [] => simp at h
      | a :: t =>
          have h2 : (a :: t).length - 19 = (t.length - 19) + 1 := by
            simp at h; simp; omega
          simp only [List.take_succ_cons, List.take_zero, h2, List.drop_succ_cons,
            List.cons_append, List.nil_append]
          exact List.Sublist.cons₂ a (List.drop_sublist _ t)
  · exact List.Sublist.refl l

theorem compact15_sublist (l : List Message) : (App.compact15 l).Sublist l := by
  unfold App.compact15
  split
  · next h =>
      match l with
      | [] => simp at h
      | a :: t =>
          have h2 : (a :: t).length - 14 = (t.length - 14) + 1 := by
            simp at h; simp; omega
          simp only [List.take_succ_cons, List.take_zero, h2, List.drop_succ_cons,
            List.cons_append, List.nil_append]
          exact List.Sublist.cons₂ a (List.drop_sublist _ t)
  · exact List.Sublist.refl l

theorem compact20_append2 (l : List Message) (u a : Message) :
    ∃ pre, ORIGINALE.compact20 (l ++ [u, a]) = pre ++ [u, a] := by
  unfold ORIGINALE.compact20
  split
  · next h =>
      refine ⟨(l ++ [u, a]).take 1 ++ l.drop ((l ++ [u, a]).length - 19), ?_⟩
      have hk : (l ++ [u, a]).length - 19 ≤ l.length := by
        simp only [List.length_append, List.length_cons, List.length_nil] at h ⊢
        omega
      rw [List.drop_append_of_le_length hk, List.append_assoc]
  · exact ⟨l, rfl⟩

theorem compact15_append1 (l : List Message) (u : Message) :
    ∃ pre, App.compact15 (l ++ [u]) = pre ++ [u] := by
  unfold App.compact15
  split
  · next h =>
      refine ⟨(l ++ [u]).take 1 ++ l.drop ((l ++ [u]).length - 14), ?_⟩
      have hk : (l ++ [u]).length - 14 ≤ l.length := by
        simp only [List.length_append, List.length_cons, List.length_nil] at h ⊢
        omega
      rw [List.drop_append_of_le_length hk, List.append_assoc]
  · exact ⟨l, rfl⟩

/-- The `app.py` handler never spawns background work, on any input. -/
theorem app_background_none (o : App.AppOracle) (f : Form) (reg : Registry)
    (store : FileStore) (b : String) :
    (App.twilio_process o f reg store b).background = none := by
  unfold App.twilio_process
  by_cases hs : pyStrip (f.SpeechResult.getD "") = "" <;> simp [hs]

/-! ### Claim C1 -/

set_option maxRecDepth 100000 in
/-- C1 is false as stated: in the `app.py` variant a submit-turn request
carrying a `CallSid` and a `RecordingUrl` is processed fully
synchronously — the handler spawns no background work and its HTTP
response already contains the final assistant reply (here spoken via
`<Say>` because no synthesis key is configured). -/
theorem C1_counterexample :
    (App.twilio_process ⟨.ok "Ένα σουβλάκι, κάτι άλλο;", false, .err, "uuid-1"⟩
      ⟨some "CA123", some "https://api.twilio.com/rec/RE1", some "θέλω ένα σουβλάκι"⟩
      [] [] "http://b").background = none ∧
    Verb.say "Ένα σουβλάκι, κάτι άλλο;" "el-GR" "" ∈
      (App.twilio_process ⟨.ok "Ένα σουβλάκι, κάτι άλλο;", false, .err, "uuid-1"⟩
        ⟨some "CA123", some "https://api.twilio.com/rec/RE1", some "θέλω ένα σουβλάκι"⟩
        [] [] "http://b").response := by
  decide

/-- C1 (amended): only the `ORIGINALE.py` variant behaves as claimed —
for every submit-turn request with non-empty `CallSid` and
`RecordingUrl` the synchronous response is exactly the fixed holding
utterance plus looped hold audio (never the assistant reply, which the
handler never computes), the turn is handed to a background thread
before the handler returns, and the handler touches neither registry
nor cache; the `app.py` variant never spawns background work and
produces its final reply synchronously. -/
theorem C1_amended_holding_response (form : Form) (reg : Registry) (store : FileStore)
    (h1 : ORIGINALE.falsy form.CallSid = false)
    (h2 : ORIGINALE.falsy form.RecordingUrl = false) :
    (ORIGINALE.twilio_process form reg store).response =
      [Verb.say ORIGINALE.holding_say_text "el-GR" "alice",
       Verb.play ORIGINALE.TWILIO_HOLD_MUSIC] ∧
    (ORIGINALE.twilio_process form reg store).background =
      some (form.CallSid.getD "", form.RecordingUrl.getD "") ∧
    (ORIGINALE.twilio_process form reg store).conversations = reg ∧
    (ORIGINALE.twilio_process form reg store).store = store ∧
    (∀ (o : App.AppOracle) (f2 : Form) (reg2 : Registry) (store2 : FileStore)
      (b : String), (App.twilio_process o f2 reg2 store2 b).background = none) := by
  have hh : ORIGINALE.twilio_process form reg store =
      ⟨reg, store,
       [Verb.say ORIGINALE.holding_say_text "el-GR" "alice",
        Verb.play ORIGINALE.TWILIO_HOLD_MUSIC],
       some (form.CallSid.getD "", form.RecordingUrl.getD "")⟩ := by
    unfold ORIGINALE.twilio_process
    rw [h1, h2]
    rfl
  refine ⟨by rw [hh], by rw [hh], by rw [hh], by rw [hh], ?_⟩
  intro o f2 reg2 store2 b
  exact app_background_none o f2 reg2 store2 b

/-- Witness for C1's amended theorem at a concrete request. -/
theorem C1_witness :
    (ORIGINALE.twilio_process ⟨some "CA1", some "RE1", none⟩ [] []).response =
      [Verb.say ORIGINALE.holding_say_text "el-GR" "alice",
       Verb.play ORIGINALE.TWILIO_HOLD_MUSIC] ∧
    (ORIGINALE.twilio_process ⟨some "CA1", some "RE1", none⟩ [] []).background =
      some ("CA1", "RE1") ∧
    (ORIGINALE.twilio_process ⟨some "CA1", some "RE1", none⟩ [] []).conversations = [] ∧
    (ORIGINALE.twilio_process ⟨some "CA1", some "RE1", none⟩ [] []).store = [] ∧
    (∀ (o : App.AppOracle) (f2 : Form) (reg2 : Registry) (store2 : FileStore)
      (b : String), (App.twilio_process o f2 reg2 store2 b).background = none) :=
  C1_amended_holding_response ⟨some "CA1", some "RE1", none⟩ [] [] (by decide) (by decide)

/-! ### Claim C2 -/

set_option maxRecDepth 100000 in
/-- C2 is false as stated for the empty text: the empty transcript
contains no Greek code point, yet the turn's outcome is the
"didn't hear you" reprompt, not the please-speak-Greek reply. -/
theorem C2_counterexample :
    ORIGINALE.is_greek "" = false ∧
    (ORIGINALE.background_process ⟨.ok [], .ok "", .ok "ναι", .err, "id"⟩
      "http://b" [] [] "CA" "RE").bot_text = some ORIGINALE.reprompt_text ∧
    (ORIGINALE.background_process ⟨.ok [], .ok "", .ok "ναι", .err, "id"⟩
      "http://b" [] [] "CA" "RE").bot_text ≠ some ORIGINALE.notgreek_text := by
  decide

/-- C2 (amended): for every transcribed text with no code point in
U+0370–U+03FF or U+1F00–U+1FFF the classifier returns `false`, the
dialogue engine is never invoked and the transcript registry is
unchanged; the fixed please-speak-Greek reply is the turn's outcome
only when the text is non-empty, while the empty text gets the
"didn't hear you" reprompt instead. -/
theorem C2_amended_language_gate (o : ORIGINALE.TurnOracle) (baseUrl : String)
    (reg : Registry) (store : FileStore) (sid rec : String) (bytes : List Nat)
    (hdl : o.download = .ok bytes)
    (h : ∀ ch ∈ (ORIGINALE.deepgram_stt o.stt).data, ORIGINALE.isGreekChar ch = false) :
    ORIGINALE.is_greek (ORIGINALE.deepgram_stt o.stt) = false ∧
    (ORIGINALE.background_process o baseUrl reg store sid rec).gptCalled = false ∧
    (ORIGINALE.background_process o baseUrl reg store sid rec).conversations = reg ∧
    (ORIGINALE.background_process o baseUrl reg store sid rec).bot_text =
      some (if ORIGINALE.deepgram_stt o.stt = "" then ORIGINALE.reprompt_text
            else ORIGINALE.notgreek_text) := by
  have hg : ORIGINALE.is_greek (ORIGINALE.deepgram_stt o.stt) = false := by
    unfold ORIGINALE.is_greek
    rw [List.any_eq_false]
    intro x hx
    simp [h x hx]
  refine ⟨hg, ?_, ?_, ?_⟩ <;>
  · unfold ORIGINALE.background_process
    rw [hdl]
    by_cases ht : ORIGINALE.deepgram_stt o.stt = "" <;> simp [ht, hg]

set_option maxRecDepth 100000 in
/-- Witness for C2's amended theorem at a concrete Latin-script turn. -/
theorem C2_witness :
    ORIGINALE.is_greek (ORIGINALE.deepgram_stt (.ok "hello there")) = false ∧
    (ORIGINALE.background_process ⟨.ok [], .ok "hello there", .ok "ναι", .err, "id"⟩
      "http://b" [] [] "CA" "RE").gptCalled = false ∧
    (ORIGINALE.background_process ⟨.ok [], .ok "hello there", .ok "ναι", .err, "id"⟩
      "http://b" [] [] "CA" "RE").conversations = [] ∧
    (ORIGINALE.background_process ⟨.ok [], .ok "hello there", .ok "ναι", .err, "id"⟩
      "http://b" [] [] "CA" "RE").bot_text = some ORIGINALE.notgreek_text :=
  C2_amended_language_gate ⟨.ok [], .ok "hello there", .ok "ναι", .err, "id"⟩
    "http://b" [] [] "CA" "RE" [] rfl (by decide)

/-! ### Claim C3 -/

/-- C3: whenever transcription yields the empty string (every failure is
converted to the empty string by `deepgram_stt`), the pipeline does not
reach `gpt_reply`, the fixed reprompt line becomes the turn's outcome,
and the call's transcript registry is unchanged. -/
theorem C3_empty_transcript_reprompt (o : ORIGINALE.TurnOracle) (baseUrl : String)
    (reg : Registry) (store : FileStore) (sid rec : String) (bytes : List Nat)
    (hdl : o.download = .ok bytes)
    (hstt : ORIGINALE.deepgram_stt o.stt = "") :
    (ORIGINALE.background_process o baseUrl reg store sid rec).bot_text =
      some ORIGINALE.reprompt_text ∧
    (ORIGINALE.background_process o baseUrl reg store sid rec).conversations = reg ∧
    (ORIGINALE.background_process o baseUrl reg store sid rec).gptCalled = false ∧
    ORIGINALE.deepgram_stt .err = "" := by
  refine ⟨?_, ?_, ?_, rfl⟩ <;>
  · unfold ORIGINALE.background_process
    rw [hdl]
    simp [hstt]

/-- Witness for C3 at a concrete failed transcription. -/
theorem C3_witness :
    (ORIGINALE.background_process ⟨.ok [0, 1], .err, .ok "ναι", .ok [9], "id"⟩
      "http://b" [("CA", [⟨"system", ORIGINALE.origSystemPrompt⟩])] [] "CA" "RE").bot_text =
      some ORIGINALE.reprompt_text ∧
    (ORIGINALE.background_process ⟨.ok [0, 1], .err, .ok "ναι", .ok [9], "id"⟩
      "http://b" [("CA", [⟨"system", ORIGINALE.origSystemPrompt⟩])] [] "CA" "RE").conversations =
      [("CA", [⟨"system", ORIGINALE.origSystemPrompt⟩])] ∧
    (ORIGINALE.background_process ⟨.ok [0, 1], .err, .ok "ναι", .ok [9], "id"⟩
      "http://b" [("CA", [⟨"system", ORIGINALE.origSystemPrompt⟩])] [] "CA" "RE").gptCalled =
      false ∧
    ORIGINALE.deepgram_stt .err = "" :=
  C3_empty_transcript_reprompt ⟨.ok [0, 1], .err, .ok "ναι", .ok [9], "id"⟩
    "http://b" [("CA", [⟨"system", ORIGINALE.origSystemPrompt⟩])] [] "CA" "RE" [0, 1] rfl rfl

/-! ### Claim C4 -/

/-- The conversation stored for the call right after one `gpt_reply`. -/
theorem gpt_reply_lookup (e : EngineResult) (reg : Registry) (sid t : String) :
    lookupA (ORIGINALE.gpt_reply e reg sid t).1 sid =
      some (ORIGINALE.compact20
        ((match lookupA reg sid with
          | some c => c
          | none => [⟨"system", ORIGINALE.origSystemPrompt⟩]) ++
         [⟨"user", t⟩,
          ⟨"assistant",
            match e with
            | .ok content => pyStrip content
            | .err => ORIGINALE.gpt_fallback⟩])) := by
  unfold ORIGINALE.gpt_reply
  dsimp only
  rw [lookupA_insertA_self]
  simp [List.append_assoc]

/-- One `gpt_reply` step preserves the head-is-system invariant and
leaves the stored conversation within the 20-message bound. -/
theorem gpt_reply_inv (e : EngineResult) (reg : Registry) (sid t : String)
    (h : ∀ c, lookupA reg sid = some c →
      c.head? = some ⟨"system", ORIGINALE.origSystemPrompt⟩) :
    ∀ c, lookupA (ORIGINALE.gpt_reply e reg sid t).1 sid = some c →
      c.head? = some ⟨"system", ORIGINALE.origSystemPrompt⟩ ∧ c.length ≤ 20 := by
  intro c hc
  rw [gpt_reply_lookup] at hc
  injection hc with hc2
  subst hc2
  refine ⟨?_, compact20_length _⟩
  rw [compact20_head]
  · cases hfind : lookupA reg sid with
    | some c0 =>
        have hh := h c0 hfind
        simp [List.head?_append, hh]
    | none => rfl
  · cases hfind : lookupA reg sid <;> simp

/-- Folding any turn sequence through `gpt_reply` preserves the
head-is-system-and-bounded invariant of the stored conversation. -/
theorem runTurns_orig_inv (sid : String) (turns : List (String × EngineResult))
    (reg : Registry)
    (h : ∀ c, lookupA reg sid = some c →
      c.head? = some ⟨"system", ORIGINALE.origSystemPrompt⟩ ∧ c.length ≤ 20) :
    ∀ c, lookupA (ORIGINALE.runTurns sid turns reg) sid = some c →
      c.head? = some ⟨"system", ORIGINALE.origSystemPrompt⟩ ∧ c.length ≤ 20 := by
  induction turns generalizing reg with
  | nil => exact h
  | cons p rest ih =>
      obtain ⟨t, e⟩ := p
      exact ih (ORIGINALE.gpt_reply e reg sid t).1
        (gpt_reply_inv e reg sid t (fun c hc => (h c hc).1))

/-- After at least one turn the call has a stored conversation. -/
theorem runTurns_orig_some (sid : String) (turns : List (String × EngineResult))
    (reg : Registry) (h : (lookupA reg sid).isSome) :
    (lookupA (ORIGINALE.runTurns sid turns reg) sid).isSome := by
  induction turns generalizing reg with
  | nil => exact h
  | cons p rest ih =>
      obtain ⟨t, e⟩ := p
      exact ih (ORIGINALE.gpt_reply e reg sid t).1 (by rw [gpt_reply_lookup]; rfl)

/-- The conversation stored for the call right after one `openai_reply`. -/
theorem openai_reply_lookup (e : EngineResult) (reg : Registry) (sid t : String) :
    lookupA (App.openai_reply e reg sid t).1 sid =
      some (
        let conv0 :=
          match lookupA reg sid with
          | some c => if c = [] then [(⟨"system", App.appSystemPrompt⟩ : Message)] else c
          | none => [⟨"system", App.appSystemPrompt⟩]
        match e with
        | .ok content =>
            App.compact15 (conv0 ++ [⟨"user", t⟩]) ++ [⟨"assistant", pyStrip content⟩]
        | .err => App.compact15 (conv0 ++ [⟨"user", t⟩])) := by
  unfold App.openai_reply
  cases e <;> (dsimp only; rw [lookupA_insertA_self])

/-- One `openai_reply` step preserves the head-is-system invariant. -/
theorem openai_reply_inv (e : EngineResult) (reg : Registry) (sid t : String)
    (h : ∀ c, lookupA reg sid = some c →
      c.head? = some ⟨"system", App.appSystemPrompt⟩) :
    ∀ c, lookupA (App.openai_reply e reg sid t).1 sid = some c →
      c.head? = some ⟨"system", App.appSystemPrompt⟩ := by
  intro c hc
  rw [openai_reply_lookup] at hc
  injection hc with hc2
  subst hc2
  have hconv0 : ∀ (conv0 : List Message),
      conv0.head? = some ⟨"system", App.appSystemPrompt⟩ →
      (App.compact15 (conv0 ++ [⟨"user", t⟩])).head? =
        some ⟨"system", App.appSystemPrompt⟩ := by
    intro conv0 h0
    rw [compact15_head]
    · simp [List.head?_append, h0]
    · simp
  have h0 : (match lookupA reg sid with
      | some c => if c = [] then [(⟨"system", App.appSystemPrompt⟩ : Message)] else c
      | none => [⟨"system", App.appSystemPrompt⟩]).head? =
        some ⟨"system", App.appSystemPrompt⟩ := by
    cases hfind : lookupA reg sid with
    | some c0 =>
        by_cases hnil : c0 = []
        · simp [hnil]
        · simp [hnil, h c0 hfind]
    | none => rfl
  cases e with
  | ok content =>
      dsimp only
      have := hconv0 _ h0
      rw [List.head?_append, this]
      rfl
  | err => exact hconv0 _ h0

/-- Folding any turn sequence through `openai_reply` preserves the
head-is-system invariant of the stored conversation. -/
theorem runTurns_app_inv (sid : String) (turns : List (String × EngineResult))
    (reg : Registry)
    (h : ∀ c, lookupA reg sid = some c →
      c.head? = some ⟨"system", App.appSystemPrompt⟩) :
    ∀ c, lookupA (App.runTurns sid turns reg) sid = some c →
      c.head? = some ⟨"system", App.appSystemPrompt⟩ := by
  induction turns generalizing reg with
  | nil => exact h
  | cons p rest ih =>
      obtain ⟨t, e⟩ := p
      exact ih (App.openai_reply e reg sid t).1 (openai_reply_inv e reg sid t h)

/-- After at least one turn the call has a stored conversation. -/
theorem runTurns_app_some (sid : String) (turns : List (String × EngineResult))
    (reg : Registry) (h : (lookupA reg sid).isSome) :
    (lookupA (App.runTurns sid turns reg) sid).isSome := by
  induction turns generalizing reg with
  | nil => exact h
  | cons p rest ih =>
      obtain ⟨t, e⟩ := p
      exact ih (App.openai_reply e reg sid t).1 (by rw [openai_reply_lookup]; rfl)

/-- C4: transcript compaction invariant, in both variants.  Starting
from the empty registry, any non-empty sequence of turns on one call
leaves a stored transcript of length at most `1 + 19` (ORIGINALE
variant) whose first element is the original system message; the
compaction step itself always yields a list of length at most
`1 + K` (`K = 19` resp. `14`), keeps the retained messages in their
original relative order (sublist), and never removes the head system
message. -/
theorem C4_transcript_bound :
    (∀ (sid : String) (turns : List (String × EngineResult)), turns ≠ [] →
      ∃ c, lookupA (ORIGINALE.runTurns sid turns []) sid = some c ∧
        c.length ≤ 1 + 19 ∧ c.head? = some ⟨"system", ORIGINALE.origSystemPrompt⟩) ∧
    (∀ l : List Message, (ORIGINALE.compact20 l).length ≤ 1 + 19 ∧
      (ORIGINALE.compact20 l).Sublist l ∧
      (l ≠ [] → (ORIGINALE.compact20 l).head? = l.head?)) ∧
    (∀ (sid : String) (turns : List (String × EngineResult)), turns ≠ [] →
      ∃ c, lookupA (App.runTurns sid turns []) sid = some c ∧
        c.head? = some ⟨"system", App.appSystemPrompt⟩) ∧
    (∀ l : List Message, (App.compact15 l).length ≤ 1 + 14 ∧
      (App.compact15 l).Sublist l ∧
      (l ≠ [] → (App.compact15 l).head? = l.head?)) := by
  refine ⟨?_, fun l => ⟨compact20_length l, compact20_sublist l, compact20_head l⟩,
    ?_, fun l => ⟨compact15_length l, compact15_sublist l, compact15_head l⟩⟩
  · intro sid turns hne
    match turns, hne with
    | (t, e) :: rest, _ =>
        have hsome : (lookupA (ORIGINALE.runTurns sid ((t, e) :: rest) []) sid).isSome := by
          show (lookupA (ORIGINALE.runTurns sid rest (ORIGINALE.gpt_reply e [] sid t).1) sid).isSome
          exact runTurns_orig_some sid rest _ (by rw [gpt_reply_lookup]; rfl)
        obtain ⟨c, hc⟩ := Option.isSome_iff_exists.mp hsome
        have hinv := runTurns_orig_inv sid ((t, e) :: rest) []
          (fun c hc => by simp [lookupA] at hc) c hc
        exact ⟨c, hc, hinv.2, hinv.1⟩
  · intro sid turns hne
    match turns, hne with
    | (t, e) :: rest, _ =>
        have hsome : (lookupA (App.runTurns sid ((t, e) :: rest) []) sid).isSome := by
          show (lookupA (App.runTurns sid rest (App.openai_reply e [] sid t).1) sid).isSome
          exact runTurns_app_some sid rest _ (by rw [openai_reply_lookup]; rfl)
        obtain ⟨c, hc⟩ := Option.isSome_iff_exists.mp hsome
        have hinv := runTurns_app_inv sid ((t, e) :: rest) []
          (fun c hc => by simp [lookupA] at hc) c hc
        exact ⟨c, hc, hinv⟩

set_option maxRecDepth 100000 in
/-- Witness for C4 at a concrete one-turn call and concrete lists. -/
theorem C4_witness :
    (∃ c, lookupA (ORIGINALE.runTurns "CA" [("γεια", .ok "Καλησπέρα!")] []) "CA" = some c ∧
      c.length ≤ 1 + 19 ∧ c.head? = some ⟨"system", ORIGINALE.origSystemPrompt⟩) ∧
    ((ORIGINALE.compact20 [⟨"system", "s"⟩]).length ≤ 1 + 19 ∧
      (ORIGINALE.compact20 [⟨"system", "s"⟩]).Sublist [⟨"system", "s"⟩] ∧
      (ORIGINALE.compact20 [⟨"system", "s"⟩]).head? = ([⟨"system", "s"⟩] : List Message).head?) ∧
    (∃ c, lookupA (App.runTurns "CA" [("γεια", .ok "Καλησπέρα!")] []) "CA" = some c ∧
      c.head? = some ⟨"system", App.appSystemPrompt⟩) ∧
    ((App.compact15 [⟨"system", "s"⟩]).length ≤ 1 + 14 ∧
      (App.compact15 [⟨"system", "s"⟩]).Sublist [⟨"system", "s"⟩] ∧
      (App.compact15 [⟨"system", "s"⟩]).head? = ([⟨"system", "s"⟩] : List Message).head?) :=
  ⟨C4_transcript_bound.1 "CA" [("γεια", .ok "Καλησπέρα!")] (by decide),
   ⟨(C4_transcript_bound.2.1 [⟨"system", "s"⟩]).1,
    (C4_transcript_bound.2.1 [⟨"system", "s"⟩]).2.1,
    (C4_transcript_bound.2.1 [⟨"system", "s"⟩]).2.2 (by decide)⟩,
   C4_transcript_bound.2.2.1 "CA" [("γεια", .ok "Καλησπέρα!")] (by decide),
   ⟨(C4_transcript_bound.2.2.2 [⟨"system", "s"⟩]).1,
    (C4_transcript_bound.2.2.2 [⟨"system", "s"⟩]).2.1,
    (C4_transcript_bound.2.2.2 [⟨"system", "s"⟩]).2.2 (by decide)⟩⟩

/-! ### Claim C5 -/

set_option maxRecDepth 100000 in
/-- C5 is false as stated: in the `app.py` variant an engine failure
leaves the stored conversation ending in the user message with no
assistant message at all — the fallback is returned to the caller but
never stored as the assistant turn. -/
theorem C5_counterexample :
    (App.openai_reply .err [] "CA1" "γεια").1 =
      [("CA1", [⟨"system", App.appSystemPrompt⟩, ⟨"user", "γεια"⟩])] ∧
    (App.openai_reply .err [] "CA1" "γεια").2 = App.openai_fallback ∧
    (∀ m ∈ [(⟨"system", App.appSystemPrompt⟩ : Message), ⟨"user", "γεια"⟩],
      m.role ≠ "assistant") := by
  decide

/-- C5 (amended): in the `ORIGINALE.py` variant every `gpt_reply`
invocation appends exactly the user message and one assistant message
(the fallback being stored on engine failure, with no error
propagated); in the `app.py` variant this holds only on engine success,
while on failure the stored conversation ends with just the user
message and the fallback is returned without being stored. -/
theorem C5_amended_transcript_mutation :
    (∀ (content : String) (reg : Registry) (sid t : String),
      ∃ pre, lookupA (ORIGINALE.gpt_reply (.ok content) reg sid t).1 sid =
          some (pre ++ [⟨"user", t⟩, ⟨"assistant", pyStrip content⟩]) ∧
        (ORIGINALE.gpt_reply (.ok content) reg sid t).2 = pyStrip content) ∧
    (∀ (reg : Registry) (sid t : String),
      ∃ pre, lookupA (ORIGINALE.gpt_reply .err reg sid t).1 sid =
          some (pre ++ [⟨"user", t⟩, ⟨"assistant", ORIGINALE.gpt_fallback⟩]) ∧
        (ORIGINALE.gpt_reply .err reg sid t).2 = ORIGINALE.gpt_fallback) ∧
    (∀ (content : String) (reg : Registry) (sid t : String),
      ∃ pre, lookupA (App.openai_reply (.ok content) reg sid t).1 sid =
          some (pre ++ [⟨"user", t⟩, ⟨"assistant", pyStrip content⟩]) ∧
        (App.openai_reply (.ok content) reg sid t).2 = pyStrip content) ∧
    (∀ (reg : Registry) (sid t : String),
      ∃ pre, lookupA (App.openai_reply .err reg sid t).1 sid =
          some (pre ++ [⟨"user", t⟩]) ∧
        (App.openai_reply .err reg sid t).2 = App.openai_fallback) := by
  refine ⟨?_, ?_, ?_, ?_⟩
  · intro content reg sid t
    obtain ⟨pre, hp⟩ := compact20_append2
      (match lookupA reg sid with
       | some c => c
       | none => [⟨"system", ORIGINALE.origSystemPrompt⟩])
      ⟨"user", t⟩ ⟨"assistant", pyStrip content⟩
    exact ⟨pre, by rw [gpt_reply_lookup, hp], rfl⟩
  · intro reg sid t
    obtain ⟨pre, hp⟩ := compact20_append2
      (match lookupA reg sid with
       | some c => c
       | none => [⟨"system", ORIGINALE.origSystemPrompt⟩])
      ⟨"user", t⟩ ⟨"assistant", ORIGINALE.gpt_fallback⟩
    exact ⟨pre, by rw [gpt_reply_lookup, hp], rfl⟩
  · intro content reg sid t
    obtain ⟨pre, hp⟩ := compact15_append1
      (match lookupA reg sid with
       | some c => if c = [] then [(⟨"system", App.appSystemPrompt⟩ : Message)] else c
       | none => [⟨"system", App.appSystemPrompt⟩])
      ⟨"user", t⟩
    refine ⟨pre, ?_, rfl⟩
    rw [openai_reply_lookup]
    dsimp only
    rw [hp, List.append_assoc]
    rfl
  · intro reg sid t
    obtain ⟨pre, hp⟩ := compact15_append1
      (match lookupA reg sid with
       | some c => if c = [] then [(⟨"system", App.appSystemPrompt⟩ : Message)] else c
       | none => [⟨"system", App.appSystemPrompt⟩])
      ⟨"user", t⟩
    refine ⟨pre, ?_, rfl⟩
    rw [openai_reply_lookup]
    dsimp only
    rw [hp]

set_option maxRecDepth 100000 in
/-- Witness for C5's amended theorem at concrete turns. -/
theorem C5_witness :
    (∃ pre, lookupA (ORIGINALE.gpt_reply (.ok "Αμέσως!") [] "CA1" "γεια").1 "CA1" =
        some (pre ++ [⟨"user", "γεια"⟩, ⟨"assistant", pyStrip "Αμέσως!"⟩]) ∧
      (ORIGINALE.gpt_reply (.ok "Αμέσως!") [] "CA1" "γεια").2 = pyStrip "Αμέσως!") ∧
    (∃ pre, lookupA (ORIGINALE.gpt_reply .err [] "CA1" "γεια").1 "CA1" =
        some (pre ++ [⟨"user", "γεια"⟩, ⟨"assistant", ORIGINALE.gpt_fallback⟩]) ∧
      (ORIGINALE.gpt_reply .err [] "CA1" "γεια").2 = ORIGINALE.gpt_fallback) ∧
    (∃ pre, lookupA (App.openai_reply (.ok "Αμέσως!") [] "CA1" "γεια").1 "CA1" =
        some (pre ++ [⟨"user", "γεια"⟩, ⟨"assistant", pyStrip "Αμέσως!"⟩]) ∧
      (App.openai_reply (.ok "Αμέσως!") [] "CA1" "γεια").2 = pyStrip "Αμέσως!") ∧
    (∃ pre, lookupA (App.openai_reply .err [] "CA1" "γεια").1 "CA1" =
        some (pre ++ [⟨"user", "γεια"⟩]) ∧
      (App.openai_reply .err [] "CA1" "γεια").2 = App.openai_fallback) :=
  ⟨C5_amended_transcript_mutation.1 "Αμέσως!" [] "CA1" "γεια",
   C5_amended_transcript_mutation.2.1 [] "CA1" "γεια",
   C5_amended_transcript_mutation.2.2.1 "Αμέσως!" [] "CA1" "γεια",
   C5_amended_transcript_mutation.2.2.2 [] "CA1" "γεια"⟩

/-! ### Claim C6 -/

set_option maxRecDepth 100000 in
/-- C6 is false as stated: a first synthesis attempt returning a 1-byte
artifact (far below any viable size) triggers no retry and no fallback
— the undersized artifact is cached and its reference returned, in both
variants. -/
theorem C6_counterexample :
    (App.eleven_tts (.ok [73]) [] "http://b" "γεια" "CA1").url =
      some ("http://b/audio/" ++ App._mp3_path_for_text "CA1" "γεια") ∧
    lookupA (App.eleven_tts (.ok [73]) [] "http://b" "γεια" "CA1").store
      (App._mp3_path_for_text "CA1" "γεια") = some [73] ∧
    (App.eleven_tts (.ok [73]) [] "http://b" "γεια" "CA1").networkCalled = true ∧
    (ORIGINALE.tts_audio (.ok [73]) "fid" [] "http://b" "γεια" "CA1").url ≠ "" := by
  decide

/-- C6 (amended): neither synthesizer validates the artifact size or
retries: on a cache miss any successful response — regardless of its
size — is written to the cache and its reference returned after the
single request, while the "unavailable" signal (`None` resp. `""`) is
produced only when the one request fails, in which case no cache entry
is written. -/
theorem C6_amended_no_retry_no_validation (store : FileStore) (b sid text : String)
    (c : List Nat)
    (hmiss : lookupA store (App._mp3_path_for_text sid text) = none) :
    App.eleven_tts (.ok c) store b text sid =
      ⟨insertA store (App._mp3_path_for_text sid text) c,
       some (b ++ "/audio/" ++ App._mp3_path_for_text sid text), true⟩ ∧
    App.eleven_tts .timeout store b text sid = ⟨store, none, true⟩ ∧
    App.eleven_tts .err store b text sid = ⟨store, none, true⟩ ∧
    (∀ (fid : String) (st : FileStore) (t2 : String),
      ORIGINALE.tts_audio (.ok c) fid st b t2 sid =
        ⟨insertA st (sid ++ "_" ++ fid ++ ".mp3") c,
         b ++ "/audio/" ++ (sid ++ "_" ++ fid ++ ".mp3"), true⟩) ∧
    (∀ (fid : String) (st : FileStore) (t2 : String),
      ORIGINALE.tts_audio .err fid st b t2 sid = ⟨st, "", true⟩) := by
  refine ⟨?_, ?_, ?_, fun fid st t2 => rfl, fun fid st t2 => rfl⟩ <;>
  · unfold App.eleven_tts
    simp [hmiss]

set_option maxRecDepth 100000 in
/-- Witness for C6's amended theorem at a concrete undersized artifact. -/
theorem C6_witness :
    App.eleven_tts (.ok [73]) [] "http://b" "γεια" "CA1" =
      ⟨insertA [] (App._mp3_path_for_text "CA1" "γεια") [73],
       some ("http://b" ++ "/audio/" ++ App._mp3_path_for_text "CA1" "γεια"), true⟩ ∧
    App.eleven_tts .timeout [] "http://b" "γεια" "CA1" = ⟨[], none, true⟩ ∧
    App.eleven_tts .err [] "http://b" "γεια" "CA1" = ⟨[], none, true⟩ ∧
    (∀ (fid : String) (st : FileStore) (t2 : String),
      ORIGINALE.tts_audio (.ok [73]) fid st "http://b" t2 "CA1" =
        ⟨insertA st ("CA1" ++ "_" ++ fid ++ ".mp3") [73],
         "http://b" ++ "/audio/" ++ ("CA1" ++ "_" ++ fid ++ ".mp3"), true⟩) ∧
    (∀ (fid : String) (st : FileStore) (t2 : String),
      ORIGINALE.tts_audio .err fid st "http://b" t2 "CA1" = ⟨st, "", true⟩) :=
  C6_amended_no_retry_no_validation [] "http://b" "CA1" "γεια" [73] rfl

/-! ### Claim C7 -/

set_option maxRecDepth 100000 in
/-- C7 is false as stated: the `ORIGINALE.py` synthesizer has no cache —
synthesizing the byte-for-byte identical text twice issues two external
synthesis calls and yields two distinct artifact references (the
filename embeds a fresh uuid each time). -/
theorem C7_counterexample :
    (ORIGINALE.tts_audio (.ok [1, 2, 3]) "aaaa" [] "http://b" "γεια σας" "CA1").networkCalled
      = true ∧
    (ORIGINALE.tts_audio (.ok [1, 2, 3]) "bbbb"
      (ORIGINALE.tts_audio (.ok [1, 2, 3]) "aaaa" [] "http://b" "γεια σας" "CA1").store
      "http://b" "γεια σας" "CA1").networkCalled = true ∧
    (ORIGINALE.tts_audio (.ok [1, 2, 3]) "aaaa" [] "http://b" "γεια σας" "CA1").url ≠
      (ORIGINALE.tts_audio (.ok [1, 2, 3]) "bbbb"
        (ORIGINALE.tts_audio (.ok [1, 2, 3]) "aaaa" [] "http://b" "γεια σας" "CA1").store
        "http://b" "γεια σας" "CA1").url := by
  decide

/-- C7 (amended): cache idempotence holds only in the `app.py` variant —
after one successful synthesis of a text for a call, every later
request for the byte-for-byte identical text in that call returns the
identical artifact reference with no network call and no further state
change, whatever the network would have answered; the `ORIGINALE.py`
synthesizer issues an external call on every single invocation. -/
theorem C7_amended_cache_idempotence (store : FileStore) (b text sid : String)
    (c : List Nat) (e2 : App.ElevenResult)
    (hmiss : lookupA store (App._mp3_path_for_text sid text) = none) :
    (App.eleven_tts (.ok c) store b text sid).networkCalled = true ∧
    (App.eleven_tts (.ok c) store b text sid).url =
      some (b ++ "/audio/" ++ App._mp3_path_for_text sid text) ∧
    (App.eleven_tts e2 (App.eleven_tts (.ok c) store b text sid).store b text
      sid).networkCalled = false ∧
    (App.eleven_tts e2 (App.eleven_tts (.ok c) store b text sid).store b text sid).url =
      (App.eleven_tts (.ok c) store b text sid).url ∧
    (App.eleven_tts e2 (App.eleven_tts (.ok c) store b text sid).store b text sid).store =
      (App.eleven_tts (.ok c) store b text sid).store ∧
    (∀ (tr : ORIGINALE.TtsResult) (fid : String) (st : FileStore) (bu tx lb : String),
      (ORIGINALE.tts_audio tr fid st bu tx lb).networkCalled = true) := by
  have h1 : App.eleven_tts (.ok c) store b text sid =
      ⟨insertA store (App._mp3_path_for_text sid text) c,
       some (b ++ "/audio/" ++ App._mp3_path_for_text sid text), true⟩ := by
    unfold App.eleven_tts
    simp [hmiss]
  have h2 : App.eleven_tts e2 (insertA store (App._mp3_path_for_text sid text) c)
      b text sid =
      ⟨insertA store (App._mp3_path_for_text sid text) c,
       some (b ++ "/audio/" ++ App._mp3_path_for_text sid text), false⟩ := by
    unfold App.eleven_tts
    simp [lookupA_insertA_self]
  refine ⟨by rw [h1], by rw [h1], ?_, ?_, ?_,
    fun tr fid st bu tx lb => by cases tr <;> rfl⟩ <;>
  · rw [h1]
    dsimp only
    rw [h2]

set_option maxRecDepth 100000 in
/-- Witness for C7's amended theorem at a concrete repeated synthesis. -/
theorem C7_witness :
    (App.eleven_tts (.ok [1, 2]) [] "http://b" "γεια" "CA1").networkCalled = true ∧
    (App.eleven_tts (.ok [1, 2]) [] "http://b" "γεια" "CA1").url =
      some ("http://b" ++ "/audio/" ++ App._mp3_path_for_text "CA1" "γεια") ∧
    (App.eleven_tts .err (App.eleven_tts (.ok [1, 2]) [] "http://b" "γεια" "CA1").store
      "http://b" "γεια" "CA1").networkCalled = false ∧
    (App.eleven_tts .err (App.eleven_tts (.ok [1, 2]) [] "http://b" "γεια" "CA1").store
      "http://b" "γεια" "CA1").url =
      (App.eleven_tts (.ok [1, 2]) [] "http://b" "γεια" "CA1").url ∧
    (App.eleven_tts .err (App.eleven_tts (.ok [1, 2]) [] "http://b" "γεια" "CA1").store
      "http://b" "γεια" "CA1").store =
      (App.eleven_tts (.ok [1, 2]) [] "http://b" "γεια" "CA1").store ∧
    (∀ (tr : ORIGINALE.TtsResult) (fid : String) (st : FileStore) (bu tx lb : String),
      (ORIGINALE.tts_audio tr fid st bu tx lb).networkCalled = true) :=
  C7_amended_cache_idempotence [] "http://b" "γεια" "CA1" [1, 2] .err rfl

/-! ### Claim C8 -/

set_option maxRecDepth 100000 in
/-- C8 is false as stated: in the `ORIGINALE.py` variant, when
synthesis fails the live-call update speaks a fixed apology — not the
assistant reply text, whose semantic content is discarded. -/
theorem C8_counterexample :
    (ORIGINALE.background_process
      ⟨.ok [0], .ok "θα ήθελα ένα σουβλάκι", .ok "Ένα σουβλάκι, κάτι άλλο;", .err, "id1"⟩
      "http://b" [] [] "CA1" "RE1").bot_text = some "Ένα σουβλάκι, κάτι άλλο;" ∧
    (ORIGINALE.background_process
      ⟨.ok [0], .ok "θα ήθελα ένα σουβλάκι", .ok "Ένα σουβλάκι, κάτι άλλο;", .err, "id1"⟩
      "http://b" [] [] "CA1" "RE1").update =
      some [Verb.say ORIGINALE.tts_fail_say_text "el-GR" "alice",
        Verb.record "/twilio/process" false 6 15] ∧
    ORIGINALE.tts_fail_say_text ≠ "Ένα σουβλάκι, κάτι άλλο;" := by
  decide

/-- C8 (amended): when synthesis ends with the "unavailable" signal,
the `app.py` variant speaks the assistant reply text directly via
`<Say>` followed by the record-next-utterance `<Gather>`; the
`ORIGINALE.py` variant instead updates the call with a fixed
apology-and-reprompt `<Say>` (discarding the reply text) followed by a
`<Record>` directive. -/
theorem C8_amended_fallback_say :
    (∀ (o : App.AppOracle) (form : Form) (reg : Registry) (store : FileStore) (b : String),
      pyStrip (form.SpeechResult.getD "") ≠ "" →
      o.elevenKeyPresent = true →
      (o.eleven = .timeout ∨ o.eleven = .err) →
      lookupA store (App._mp3_path_for_text (form.CallSid.getD o.fresh_uuid)
        (App.openai_reply o.engine reg (form.CallSid.getD o.fresh_uuid)
          (form.SpeechResult.getD "")).2) = none →
      (App.twilio_process o form reg store b).response =
        [Verb.say (App.openai_reply o.engine reg (form.CallSid.getD o.fresh_uuid)
            (form.SpeechResult.getD "")).2 "el-GR" "",
         App.followupGather, Verb.redirect "/twilio/voice"]) ∧
    (∀ (o : ORIGINALE.TurnOracle) (b : String) (reg : Registry) (store : FileStore)
      (sid rec : String) (bytes : List Nat),
      o.download = .ok bytes →
      o.tts = .err →
      (ORIGINALE.background_process o b reg store sid rec).update =
        some [Verb.say ORIGINALE.tts_fail_say_text "el-GR" "alice",
          Verb.record "/twilio/process" false 6 15]) := by
  constructor
  · intro o form reg store b hs hk he hmiss
    have ht : App.eleven_tts o.eleven store b
        (App.openai_reply o.engine reg (form.CallSid.getD o.fresh_uuid)
          (form.SpeechResult.getD "")).2 (form.CallSid.getD o.fresh_uuid) =
        ⟨store, none, true⟩ := by
      rcases he with he | he <;>
      · rw [he]
        unfold App.eleven_tts
        simp [hmiss]
    unfold App.twilio_process
    dsimp only
    rw [if_neg hs, hk]
    simp [ht]
  · intro o b reg store sid rec bytes hdl htts
    unfold ORIGINALE.background_process
    rw [hdl, htts]
    by_cases ht : ORIGINALE.deepgram_stt o.stt = "" <;>
      by_cases hg : ORIGINALE.is_greek (ORIGINALE.deepgram_stt o.stt) = false <;>
        simp [ht, hg, ORIGINALE.tts_audio]

set_option maxRecDepth 100000 in
/-- Witness for C8's amended theorem at a concrete failed synthesis. -/
theorem C8_witness :
    (App.twilio_process ⟨.ok "Ναι αμέσως!", true, .timeout, "u1"⟩
      ⟨some "CA1", none, some "ένα σουβλάκι"⟩ [] [] "http://b").response =
      [Verb.say (App.openai_reply (.ok "Ναι αμέσως!") [] "CA1" "ένα σουβλάκι").2
          "el-GR" "",
       App.followupGather, Verb.redirect "/twilio/voice"] ∧
    (App.twilio_process ⟨.ok "Ναι αμέσως!", true, .err, "u1"⟩
      ⟨some "CA1", none, some "ένα σουβλάκι"⟩ [] [] "http://b").response =
      [Verb.say (App.openai_reply (.ok "Ναι αμέσως!") [] "CA1" "ένα σουβλάκι").2
          "el-GR" "",
       App.followupGather, Verb.redirect "/twilio/voice"] ∧
    (ORIGINALE.background_process
      ⟨.ok [0], .ok "θέλω πίτα", .ok "Μάλιστα!", .err, "id9"⟩
      "http://b" [] [] "CA2" "RE2").update =
      some [Verb.say ORIGINALE.tts_fail_say_text "el-GR" "alice",
        Verb.record "/twilio/process" false 6 15] :=
  ⟨C8_amended_fallback_say.1 ⟨.ok "Ναι αμέσως!", true, .timeout, "u1"⟩
      ⟨some "CA1", none, some "ένα σουβλάκι"⟩ [] [] "http://b"
      (by decide) rfl (Or.inl rfl) rfl,
   C8_amended_fallback_say.1 ⟨.ok "Ναι αμέσως!", true, .err, "u1"⟩
      ⟨some "CA1", none, some "ένα σουβλάκι"⟩ [] [] "http://b"
      (by decide) rfl (Or.inr rfl) rfl,
   C8_amended_fallback_say.2 ⟨.ok [0], .ok "θέλω πίτα", .ok "Μάλιστα!", .err, "id9"⟩
      "http://b" [] [] "CA2" "RE2" [0] rfl rfl⟩

/-! ### Claim C9 -/

/-- Distinct call sids give distinct cache filenames for the same text. -/
theorem mp3_path_ne (sid1 sid2 t : String) (h : sid1 ≠ sid2) :
    App._mp3_path_for_text sid1 t ≠ App._mp3_path_for_text sid2 t := by
  intro heq
  apply h
  unfold App._mp3_path_for_text at heq
  generalize App.sha1hex16 t = hh at heq
  have h2 := congrArg String.data heq
  simp only [String.data_append, List.append_assoc] at h2
  have hd : sid1.data = sid2.data := List.append_cancel_right h2
  cases sid1
  cases sid2
  exact congrArg String.mk hd

/-- C9: the cache filename is a deterministic pure function of the pair
(callID, SHA-1 hash of the text): texts with the same hash map to the
same filename within a call, distinct callIDs always map to distinct
filenames, and after one call has populated its cache entry, the same
text arriving for a different call still issues its own external
synthesis request. -/
theorem C9_cache_key_scoped_per_call :
    (∀ (sid t1 t2 : String), App.sha1hex16 t1 = App.sha1hex16 t2 →
      App._mp3_path_for_text sid t1 = App._mp3_path_for_text sid t2) ∧
    (∀ (sid1 sid2 t : String), sid1 ≠ sid2 →
      App._mp3_path_for_text sid1 t ≠ App._mp3_path_for_text sid2 t) ∧
    (∀ (store : FileStore) (b t sid1 sid2 : String) (c : List Nat)
      (e2 : App.ElevenResult), sid1 ≠ sid2 →
      lookupA store (App._mp3_path_for_text sid2 t) = none →
      (App.eleven_tts e2 (App.eleven_tts (.ok c) store b t sid1).store b t
        sid2).networkCalled = true) := by
  refine ⟨?_, fun sid1 sid2 t h => mp3_path_ne sid1 sid2 t h, ?_⟩
  · intro sid t1 t2 h
    unfold App._mp3_path_for_text
    rw [h]
  · intro store b t sid1 sid2 c e2 hne hmiss
    have hpath : App._mp3_path_for_text sid2 t ≠ App._mp3_path_for_text sid1 t :=
      mp3_path_ne sid2 sid1 t (Ne.symm hne)
    have hstill : lookupA (App.eleven_tts (.ok c) store b t sid1).store
        (App._mp3_path_for_text sid2 t) = none := by
      unfold App.eleven_tts
      by_cases hhit : (lookupA store (App._mp3_path_for_text sid1 t)).isSome
      · simpa [hhit] using hmiss
      · simp [hhit, lookupA_insertA_ne _ _ _ _ hpath, hmiss]
    have hmain : ∀ S : FileStore, lookupA S (App._mp3_path_for_text sid2 t) = none →
        (App.eleven_tts e2 S b t sid2).networkCalled = true := by
      intro S hS
      unfold App.eleven_tts
      simp only [hS, Option.isSome_none, Bool.false_eq_true, if_false]
      cases e2 <;> rfl
    exact hmain _ hstill

set_option maxRecDepth 100000 in
/-- Witness for C9 at concrete calls and text. -/
theorem C9_witness :
    App._mp3_path_for_text "CA1" "γεια" = App._mp3_path_for_text "CA1" "γεια" ∧
    App._mp3_path_for_text "CA1" "γεια" ≠ App._mp3_path_for_text "CA2" "γεια" ∧
    (App.eleven_tts .err (App.eleven_tts (.ok [7]) [] "http://b" "γεια" "CA1").store
      "http://b" "γεια" "CA2").networkCalled = true :=
  ⟨C9_cache_key_scoped_per_call.1 "CA1" "γεια" "γεια" rfl,
   C9_cache_key_scoped_per_call.2.1 "CA1" "CA2" "γεια" (by decide),
   C9_cache_key_scoped_per_call.2.2 [] "http://b" "γεια" "CA1" "CA2" [7] .err
     (by decide) rfl⟩

/-! ### Claim C10 -/

/-- `openai_reply` touches no registry key other than its call sid. -/
theorem openai_reply_frame (e : EngineResult) (reg : Registry) (sid t k : String)
    (hk : k ≠ sid) :
    lookupA (App.openai_reply e reg sid t).1 k = lookupA reg k := by
  unfold App.openai_reply
  cases e <;> (dsimp only; rw [lookupA_insertA_ne _ _ _ _ hk])

/-- C10: a submit-turn request lacking a `CallSid` never touches an
existing session.  The `ORIGINALE.py` handler answers with the error
`<Say>`, spawns no background work, and leaves registry and cache
unchanged.  The `app.py` handler substitutes the fresh uuid as the
session key, so every other key's transcript is untouched and (when
speech is non-empty) the turn runs against a brand-new session headed
by the system message. -/
theorem C10_missing_callid_isolation :
    (∀ (form : Form) (reg : Registry) (store : FileStore),
      form.CallSid = none →
      (ORIGINALE.twilio_process form reg store).response =
        [Verb.say ORIGINALE.proc_error_say_text "el-GR" "alice"] ∧
      (ORIGINALE.twilio_process form reg store).background = none ∧
      (ORIGINALE.twilio_process form reg store).conversations = reg ∧
      (ORIGINALE.twilio_process form reg store).store = store) ∧
    (∀ (o : App.AppOracle) (form : Form) (reg : Registry) (store : FileStore)
      (b : String),
      form.CallSid = none →
      lookupA reg o.fresh_uuid = none →
      (∀ k, k ≠ o.fresh_uuid →
        lookupA (App.twilio_process o form reg store b).conversations k =
          lookupA reg k) ∧
      (pyStrip (form.SpeechResult.getD "") ≠ "" →
        ∃ c, lookupA (App.twilio_process o form reg store b).conversations
            o.fresh_uuid = some c ∧
          c.head? = some ⟨"system", App.appSystemPrompt⟩)) := by
  constructor
  · intro form reg store hcs
    unfold ORIGINALE.twilio_process
    simp [ORIGINALE.falsy, hcs]
  · intro o form reg store b hcs hfresh
    constructor
    · intro k hk
      unfold App.twilio_process
      by_cases hs : pyStrip (form.SpeechResult.getD "") = ""
      · simp [hs]
      · dsimp only
        rw [if_neg hs, hcs]
        dsimp only
        exact openai_reply_frame o.engine reg o.fresh_uuid
          (form.SpeechResult.getD "") k hk
    · intro hs
      unfold App.twilio_process
      dsimp only
      rw [if_neg hs, hcs]
      dsimp only
      refine ⟨_, openai_reply_lookup o.engine reg o.fresh_uuid
        (form.SpeechResult.getD ""), ?_⟩
      exact openai_reply_inv o.engine reg o.fresh_uuid (form.SpeechResult.getD "")
        (fun c hc => by rw [hfresh] at hc; cases hc) _
        (openai_reply_lookup o.engine reg o.fresh_uuid (form.SpeechResult.getD ""))

set_option maxRecDepth 100000 in
/-- Witness for C10 at concrete requests lacking a `CallSid`. -/
theorem C10_witness :
    ((ORIGINALE.twilio_process ⟨none, some "RE1", none⟩ [] []).response =
        [Verb.say ORIGINALE.proc_error_say_text "el-GR" "alice"] ∧
      (ORIGINALE.twilio_process ⟨none, some "RE1", none⟩ [] []).background = none ∧
      (ORIGINALE.twilio_process ⟨none, some "RE1", none⟩ [] []).conversations = [] ∧
      (ORIGINALE.twilio_process ⟨none, some "RE1", none⟩ [] []).store = []) ∧
    lookupA (App.twilio_process ⟨.ok "Αμέσως!", false, .err, "u1"⟩
        ⟨none, none, some "γεια"⟩ [] [] "http://b").conversations "OTHER" =
      lookupA [] "OTHER" ∧
    (∃ c, lookupA (App.twilio_process ⟨.ok "Αμέσως!", false, .err, "u1"⟩
          ⟨none, none, some "γεια"⟩ [] [] "http://b").conversations "u1" = some c ∧
      c.head? = some ⟨"system", App.appSystemPrompt⟩) :=
  ⟨C10_missing_callid_isolation.1 ⟨none, some "RE1", none⟩ [] [] rfl,
   (C10_missing_callid_isolation.2 ⟨.ok "Αμέσως!", false, .err, "u1"⟩
      ⟨none, none, some "γεια"⟩ [] [] "http://b" rfl rfl).1 "OTHER" (by decide),
   (C10_missing_callid_isolation.2 ⟨.ok "Αμέσως!", false, .err, "u1"⟩
      ⟨none, none, some "γεια"⟩ [] [] "http://b" rfl rfl).2 (by decide)⟩

end Aibot
